import Mathlib

/-!
Verification of the time-phased biomechanical overlay rendering pipeline
of the bowlingMate repository.

The development shallowly embeds the pure parts of
`backend/mediapipe_overlay.py` (phase lookup, joint color resolution,
frame dilation, per-frame rendering) and the control flow of
`backend/main.py` function `_generate_overlay_sync` (orchestration,
error handling, temporary-file lifecycle).  External effects (video
decoding, pose estimation, ffmpeg, uploads) are modelled as explicit
world parameters; the embedded functions follow the source line by line.
-/

set_option autoImplicit false

namespace BowlingMate

/-- BGR color triple, as passed to the OpenCV drawing calls. -/
abbrev Color := Nat × Nat × Nat

/-- `GREEN` constant of mediapipe_overlay.py. -/
def GREEN : Color := (0, 255, 0)

/-- `YELLOW` constant of mediapipe_overlay.py. -/
def YELLOW : Color := (0, 255, 255)

/-- `RED` constant of mediapipe_overlay.py. -/
def RED : Color := (0, 0, 255)

/-- `WHITE` constant of mediapipe_overlay.py. -/
def WHITE : Color := (255, 255, 255)

/-- The fixed 12-joint enumeration `KEY_JOINTS` of mediapipe_overlay.py. -/
def KEY_JOINTS : List String :=
  ["LEFT_SHOULDER", "RIGHT_SHOULDER",
   "LEFT_ELBOW", "RIGHT_ELBOW",
   "LEFT_WRIST", "RIGHT_WRIST",
   "LEFT_HIP", "RIGHT_HIP",
   "LEFT_KNEE", "RIGHT_KNEE",
   "LEFT_ANKLE", "RIGHT_ANKLE"]

/-- The 33-landmark vocabulary of the pose estimator
(`mp_pose.PoseLandmark`), in enumeration order. -/
def POSE_LANDMARKS : List String :=
  ["NOSE", "LEFT_EYE_INNER", "LEFT_EYE", "LEFT_EYE_OUTER",
   "RIGHT_EYE_INNER", "RIGHT_EYE", "RIGHT_EYE_OUTER",
   "LEFT_EAR", "RIGHT_EAR", "MOUTH_LEFT", "MOUTH_RIGHT",
   "LEFT_SHOULDER", "RIGHT_SHOULDER", "LEFT_ELBOW", "RIGHT_ELBOW",
   "LEFT_WRIST", "RIGHT_WRIST", "LEFT_PINKY", "RIGHT_PINKY",
   "LEFT_INDEX", "RIGHT_INDEX", "LEFT_THUMB", "RIGHT_THUMB",
   "LEFT_HIP", "RIGHT_HIP", "LEFT_KNEE", "RIGHT_KNEE",
   "LEFT_ANKLE", "RIGHT_ANKLE", "LEFT_HEEL", "RIGHT_HEEL",
   "LEFT_FOOT_INDEX", "RIGHT_FOOT_INDEX"]

/-- The feedback record of one phase: the three joint-name lists the
source reads with `feedback.get(key, [])` (a missing key reads as `[]`,
so the record is total). -/
structure Feedback where
  injury_risk : List String
  slow : List String
  good : List String
deriving DecidableEq, Repr

/-- The feedback record with all three categories empty, as returned by
`get_phase_feedback` past the last phase. -/
def emptyFeedback : Feedback := ⟨[], [], []⟩

/-- One timed phase as stored in the feedback JSON: interval
`[start, stop)` in seconds, display name, feedback sets.  The source
field `end` is a Lean keyword and is embedded as `stop`. -/
structure Phase where
  start : ℚ
  stop : ℚ
  name : String
  feedback : Feedback
deriving DecidableEq, Repr

/-- The scanning loop of `get_phase_feedback`: first phase (in list
order, carrying its index) whose interval contains the timestamp. -/
def get_phase_feedback_from : List Phase → ℚ → Int →
    Option (Int × String × Feedback)
  | [], _, _ => none
  | p :: rest, timestamp, idx =>
      if p.start ≤ timestamp ∧ timestamp < p.stop then
        some (idx, p.name, p.feedback)
      else
        get_phase_feedback_from rest timestamp (idx + 1)

/-- `get_phase_feedback` of mediapipe_overlay.py: resolve the active
phase for a timestamp; when no interval matches, fall through to
`(len(phases)-1, "done", empty feedback)`. -/
def get_phase_feedback (phases : List Phase) (timestamp : ℚ) :
    Int × String × Feedback :=
  match get_phase_feedback_from phases timestamp 0 with
  | some r => r
  | none => ((phases.length : Int) - 1, "done", emptyFeedback)

/-- `get_color` of mediapipe_overlay.py: phase 0 renders any joint in
light gray; later phases render only joints named in some feedback
category, with priority injury_risk, then slow, then good. -/
def get_color (name : String) (feedback : Feedback) (phase_idx : Int) :
    Option Color :=
  if phase_idx = 0 then
    some (180, 180, 180)
  else if name ∉ feedback.injury_risk ∧ name ∉ feedback.slow ∧
          name ∉ feedback.good then
    none
  else if name ∈ feedback.injury_risk then some RED
  else if name ∈ feedback.slow then some YELLOW
  else some GREEN

/-- The per-joint step of the drawing loop in `process`: landmarks whose
name is outside `KEY_JOINTS` are skipped before `get_color` is consulted. -/
def jointRenderColor (name : String) (feedback : Feedback)
    (phase_idx : Int) : Option Color :=
  if name ∈ KEY_JOINTS then get_color name feedback phase_idx else none

/-- Whether the drawing loop draws a circle marker for this joint. -/
def jointDrawn (name : String) (feedback : Feedback) (phase_idx : Int) :
    Bool :=
  (jointRenderColor name feedback phase_idx).isSome

/-- All joint markers drawn on one frame with detected landmarks: the
loop over the 33 landmarks, keeping key joints that resolve to a color. -/
def drawnJoints (feedback : Feedback) (phase_idx : Int) :
    List (String × Color) :=
  POSE_LANDMARKS.filterMap (fun name =>
    if name ∈ KEY_JOINTS then
      (get_color name feedback phase_idx).map (fun c => (name, c))
    else none)

/-- Frame-dilation factor of `process`: one write while scanning
(phase 0), four writes on feedback phases. -/
def repeatsFor (phase_idx : Int) : Nat :=
  if phase_idx = 0 then 1 else 4

/-- Number of copies of frame `n` written to the output stream. -/
def framesWritten (phases : List Phase) (fps : ℚ) (n : Nat) : Nat :=
  repeatsFor (get_phase_feedback phases ((n : ℚ) / fps)).1

/-- Total number of frames written to the output stream for a source of
`frameCount` frames at `fps`. -/
def writtenFrames (phases : List Phase) (fps : ℚ) (frameCount : Nat) :
    Nat :=
  ((List.range frameCount).map (framesWritten phases fps)).sum

/-- Observable content of one rendered frame: burned-in caption,
timestamp, whether skeleton connection lines were drawn, and the drawn
joint markers. -/
structure RenderedFrame where
  label : String
  timestamp : ℚ
  skeletonDrawn : Bool
  joints : List (String × Color)
deriving DecidableEq, Repr

/-- Rendering of source frame `n`: resolve the active phase, burn the
caption (the "ANALYZING..." sentinel on phase 0, else the uppercased
phase name), and draw skeleton and joints only when the pose estimator
detected landmarks on this frame. -/
def renderFrame (phases : List Phase) (fps : ℚ) (detected : Bool)
    (n : Nat) : RenderedFrame :=
  let timestamp := (n : ℚ) / fps
  let pf := get_phase_feedback phases timestamp
  { label := if pf.1 = 0 then "ANALYZING..." else pf.2.1.toUpper
    timestamp := timestamp
    skeletonDrawn := detected
    joints := if detected then drawnJoints pf.2.2 pf.1 else [] }

/-- The full output stream of the render loop: each source frame is
rendered once and written `repeatsFor` times, in order.  `detected`
gives the pose-estimation outcome per source frame. -/
def outputStream (phases : List Phase) (fps : ℚ) (detected : Nat → Bool)
    (frameCount : Nat) : List RenderedFrame :=
  (List.range frameCount).flatMap (fun n =>
    List.replicate (framesWritten phases fps n)
      (renderFrame phases fps (detected n) n))

/-! ### Helper lemmas about phase resolution -/

/-- If the timestamp lies in the interval of the head phase, resolution
returns index 0 with that phase. -/
theorem gpf_cons_here (p : Phase) (rest : List Phase) (t : ℚ)
    (h : p.start ≤ t ∧ t < p.stop) :
    get_phase_feedback (p :: rest) t = (0, p.name, p.feedback) := by
  unfold get_phase_feedback
  simp only [get_phase_feedback_from]
  rw [if_pos h]

/-- If the timestamp misses the head phase, the scanning loop moves on
with the index advanced. -/
theorem gpf_from_skip (p : Phase) (rest : List Phase) (t : ℚ) (idx : Int)
    (h : ¬(p.start ≤ t ∧ t < p.stop)) :
    get_phase_feedback_from (p :: rest) t idx =
      get_phase_feedback_from rest t (idx + 1) := by
  simp only [get_phase_feedback_from]
  rw [if_neg h]

/-- The scanning loop never returns an index below its starting index. -/
theorem gpf_from_idx_le (phases : List Phase) (t : ℚ) :
    ∀ (idx : Int) (r : Int × String × Feedback),
      get_phase_feedback_from phases t idx = some r → idx ≤ r.1 := by
  induction phases with
  | nil => intro idx r h; simp [get_phase_feedback_from] at h
  | cons p rest ih =>
      intro idx r h
      by_cases hc : p.start ≤ t ∧ t < p.stop
      · have h' : (idx, p.name, p.feedback) = r := by
          simpa [get_phase_feedback_from, hc] using h
        subst h'
        exact le_refl idx
      · rw [gpf_from_skip p rest t idx hc] at h
        have := ih (idx + 1) r h
        omega

/-- If every phase ends at or before the timestamp, the scanning loop
finds no phase. -/
theorem gpf_from_past (phases : List Phase) (t : ℚ)
    (h : ∀ p ∈ phases, p.stop ≤ t) :
    ∀ idx, get_phase_feedback_from phases t idx = none := by
  induction phases with
  | nil => intro idx; rfl
  | cons p rest ih =>
      intro idx
      have hp : ¬(p.start ≤ t ∧ t < p.stop) := by
        intro hc
        exact absurd hc.2 (not_lt.mpr (h p (List.mem_cons_self p rest)))
      rw [gpf_from_skip p rest t idx hp]
      exact ih (fun q hq => h q (List.mem_cons_of_mem p hq)) (idx + 1)

/-- With at least two phases, a timestamp outside the head phase always
resolves to a positive phase index. -/
theorem gpf_cons_later (p0 : Phase) (rest : List Phase) (t : ℚ)
    (hrest : rest ≠ []) (h : ¬(p0.start ≤ t ∧ t < p0.stop)) :
    1 ≤ (get_phase_feedback (p0 :: rest) t).1 := by
  unfold get_phase_feedback
  rw [gpf_from_skip p0 rest t 0 h]
  cases haux : get_phase_feedback_from rest t (0 + 1) with
  | none =>
      have hlen : 1 ≤ rest.length := List.length_pos.mpr hrest
      simp only [List.length_cons]
      omega
  | some r =>
      have := gpf_from_idx_le rest t (0 + 1) r haux
      simpa using this

/-- A positive phase index always dilates by a factor of four. -/
theorem repeatsFor_pos (idx : Int) (h : 1 ≤ idx) : repeatsFor idx = 4 := by
  unfold repeatsFor
  rw [if_neg (by omega : ¬ idx = 0)]

/-! ### Claim theorems -/

/-- Claim C1: in FEEDBACK state (phase index at least 1), a key joint
that appears in more than one feedback category of the active phase is
colored by the highest-priority category containing it: red when in
injury_risk, else yellow when in slow, else green; this holds for every
combination of memberships. -/
theorem C1_color_priority (name : String) (fb : Feedback) (idx : Int)
    (hkey : name ∈ KEY_JOINTS) (hidx : 1 ≤ idx)
    (hmulti : (name ∈ fb.injury_risk ∧ name ∈ fb.slow) ∨
              (name ∈ fb.injury_risk ∧ name ∈ fb.good) ∨
              (name ∈ fb.slow ∧ name ∈ fb.good)) :
    get_color name fb idx =
      some (if name ∈ fb.injury_risk then RED
            else if name ∈ fb.slow then YELLOW else GREEN) := by
  have h0 : ¬ idx = 0 := by omega
  have hin : ¬(name ∉ fb.injury_risk ∧ name ∉ fb.slow ∧ name ∉ fb.good) := by
    rcases hmulti with ⟨h1, h2⟩ | ⟨h1, h2⟩ | ⟨h1, h2⟩ <;> tauto
  unfold get_color
  rw [if_neg h0, if_neg hin]
  by_cases hI : name ∈ fb.injury_risk
  · rw [if_pos hI, if_pos hI]
  · rw [if_neg hI, if_neg hI]
    by_cases hS : name ∈ fb.slow
    · rw [if_pos hS, if_pos hS]
    · rw [if_neg hS, if_neg hS]

/-- Closed instance of C1: a joint listed in all three categories is
drawn red. -/
theorem C1_color_priority_witness :
    get_color "RIGHT_ELBOW"
      (Feedback.mk ["RIGHT_ELBOW"] ["RIGHT_ELBOW"] ["RIGHT_ELBOW"]) 1 =
      some RED :=
  (C1_color_priority "RIGHT_ELBOW"
      (Feedback.mk ["RIGHT_ELBOW"] ["RIGHT_ELBOW"] ["RIGHT_ELBOW"]) 1
      (by decide) (by decide)
      (Or.inl ⟨by decide, by decide⟩)).trans (by decide)

/-- Claim C2 is refuted as stated: past the end of the last phase the
resolver does not keep the last phase's feedback sets; here the last
(only) phase has good = [RIGHT_WRIST], yet the feedback returned at
t = 2 is empty. -/
theorem C2_counterexample :
    (get_phase_feedback
        [Phase.mk 0 1 "release" (Feedback.mk [] [] ["RIGHT_WRIST"])]
        2).2.2 ≠ Feedback.mk [] [] ["RIGHT_WRIST"] ∧
    get_phase_feedback
        [Phase.mk 0 1 "release" (Feedback.mk [] [] ["RIGHT_WRIST"])] 2 =
      (0, "done", emptyFeedback) := by
  constructor
  · decide
  · decide

/-- Claim C2 (amended): for a non-empty time-ordered phase list and a
timestamp at or past the last phase's end, resolution returns the last
phase's index and the label "done", but with all feedback sets empty
(so no joint carries feedback color), not the last phase's feedback. -/
theorem C2_past_end (phases : List Phase) (t : ℚ) (hne : phases ≠ [])
    (hord : ∀ p ∈ phases, p.stop ≤ (phases.getLast hne).stop)
    (ht : (phases.getLast hne).stop ≤ t) :
    get_phase_feedback phases t =
      ((phases.length : Int) - 1, "done", emptyFeedback) := by
  have hall : ∀ p ∈ phases, p.stop ≤ t := fun p hp =>
    le_trans (hord p hp) ht
  unfold get_phase_feedback
  rw [gpf_from_past phases t hall 0]

/-- Closed instance of C2 (amended): two phases, timestamp past the
end, resolves to index 1, "done", empty feedback. -/
theorem C2_past_end_witness :
    get_phase_feedback
        [Phase.mk 0 2 "run_up" emptyFeedback,
         Phase.mk 2 4 "release" (Feedback.mk ["RIGHT_ELBOW"] [] [])] 9 =
      (1, "done", emptyFeedback) :=
  (C2_past_end
      [Phase.mk 0 2 "run_up" emptyFeedback,
       Phase.mk 2 4 "release" (Feedback.mk ["RIGHT_ELBOW"] [] [])] 9
      (by decide) (by decide) (by decide)).trans (by decide)

/-- Claim C4: for any frame whose timestamp falls inside the first
phase's interval the active phase index is 0 (SCANNING), and every key
joint renders in the fixed neutral scanning tone (180,180,180),
whatever the feedback sets contain. -/
theorem C4_scanning_neutral (phases : List Phase) (p0 : Phase)
    (rest : List Phase) (t : ℚ) (hp : phases = p0 :: rest)
    (ht : p0.start ≤ t ∧ t < p0.stop) (name : String) (fb : Feedback)
    (hkey : name ∈ KEY_JOINTS) :
    (get_phase_feedback phases t).1 = 0 ∧
    jointRenderColor name fb (get_phase_feedback phases t).1 =
      some (180, 180, 180) := by
  subst hp
  rw [gpf_cons_here p0 rest t ht]
  exact ⟨rfl, by simp [jointRenderColor, get_color, hkey]⟩

/-- Closed instance of C4: inside the first phase, a key joint listed in
injury_risk still renders in the scanning tone. -/
theorem C4_scanning_neutral_witness :
    (get_phase_feedback [Phase.mk 0 2 "run_up"
        (Feedback.mk ["LEFT_KNEE"] [] [])] 1).1 = 0 ∧
    jointRenderColor "LEFT_KNEE" (Feedback.mk ["LEFT_KNEE"] [] [])
        (get_phase_feedback [Phase.mk 0 2 "run_up"
          (Feedback.mk ["LEFT_KNEE"] [] [])] 1).1 =
      some (180, 180, 180) :=
  C4_scanning_neutral
    [Phase.mk 0 2 "run_up" (Feedback.mk ["LEFT_KNEE"] [] [])]
    (Phase.mk 0 2 "run_up" (Feedback.mk ["LEFT_KNEE"] [] []))
    [] 1 rfl (by decide) "LEFT_KNEE" (Feedback.mk ["LEFT_KNEE"] [] [])
    (by decide)

/-- Claim C5: in FEEDBACK state, a key joint named in none of the three
feedback categories resolves to no color, its marker is not drawn, and
it never appears among the drawn joints of the frame. -/
theorem C5_selective_disclosure (name : String) (fb : Feedback)
    (idx : Int) (hkey : name ∈ KEY_JOINTS) (hidx : 1 ≤ idx)
    (habs : name ∉ fb.injury_risk ∧ name ∉ fb.slow ∧ name ∉ fb.good) :
    get_color name fb idx = none ∧
    jointDrawn name fb idx = false ∧
    ∀ c : Color, (name, c) ∉ drawnJoints fb idx := by
  have h0 : ¬ idx = 0 := by omega
  have hc : get_color name fb idx = none := by
    unfold get_color
    rw [if_neg h0, if_pos habs]
  refine ⟨hc, ?_, ?_⟩
  · unfold jointDrawn jointRenderColor
    rw [if_pos hkey, hc]
    rfl
  · intro c hmem
    unfold drawnJoints at hmem
    rw [List.mem_filterMap] at hmem
    obtain ⟨a, _, hfa⟩ := hmem
    by_cases hak : a ∈ KEY_JOINTS
    · rw [if_pos hak] at hfa
      cases hga : get_color a fb idx with
      | none => rw [hga] at hfa; simp at hfa
      | some col =>
          rw [hga] at hfa
          simp only [Option.map_some', Option.some_inj, Prod.mk.injEq] at hfa
          rw [hfa.1] at hga
          rw [hc] at hga
          exact Option.noConfusion hga
    · rw [if_neg hak] at hfa
      exact Option.noConfusion hfa

/-- Closed instance of C5: LEFT_ANKLE is in no category and is skipped
in a feedback phase. -/
theorem C5_selective_disclosure_witness :
    get_color "LEFT_ANKLE"
        (Feedback.mk ["RIGHT_ELBOW"] ["RIGHT_HIP"] ["RIGHT_SHOULDER"]) 1 =
      none ∧
    jointDrawn "LEFT_ANKLE"
        (Feedback.mk ["RIGHT_ELBOW"] ["RIGHT_HIP"] ["RIGHT_SHOULDER"]) 1 =
      false :=
  let h := C5_selective_disclosure "LEFT_ANKLE"
    (Feedback.mk ["RIGHT_ELBOW"] ["RIGHT_HIP"] ["RIGHT_SHOULDER"]) 1
    (by decide) (by decide) ⟨by decide, by decide, by decide⟩
  ⟨h.1, h.2.1⟩

/-! ### Frame dilation (C3) -/

/-- The concrete two-phase scenario: SCANNING on [0,2), FEEDBACK on
[2,4), for a 4-second 30fps source. -/
def demoPhases : List Phase :=
  [Phase.mk 0 2 "run_up" emptyFeedback,
   Phase.mk 2 4 "release" (Feedback.mk ["RIGHT_ELBOW"] [] [])]

/-- In the demo scenario, frames 0..59 land in the first phase and are
written once. -/
theorem demo_framesWritten_lo (n : Nat) (hn : n < 60) :
    framesWritten demoPhases 30 n = 1 := by
  unfold framesWritten demoPhases
  have ht : (Phase.mk 0 2 "run_up" emptyFeedback).start ≤ (n : ℚ) / 30 ∧
      (n : ℚ) / 30 < (Phase.mk 0 2 "run_up" emptyFeedback).stop := by
    constructor
    · show (0 : ℚ) ≤ (n : ℚ) / 30
      positivity
    · show (n : ℚ) / 30 < 2
      rw [div_lt_iff₀ (by norm_num : (0:ℚ) < 30)]
      have h' : (n : ℚ) < 60 := by exact_mod_cast hn
      linarith
  rw [gpf_cons_here _ _ _ ht]
  rfl

/-- In the demo scenario, frames 60..119 land in the second phase and
are written four times. -/
theorem demo_framesWritten_hi (n : Nat) (h1 : 60 ≤ n) (h2 : n < 120) :
    framesWritten demoPhases 30 n = 4 := by
  unfold framesWritten demoPhases
  have h60 : (60 : ℚ) ≤ (n : ℚ) := by exact_mod_cast h1
  have h120 : (n : ℚ) < 120 := by exact_mod_cast h2
  have hnot : ¬((Phase.mk 0 2 "run_up" emptyFeedback).start ≤ (n : ℚ) / 30 ∧
      (n : ℚ) / 30 < (Phase.mk 0 2 "run_up" emptyFeedback).stop) := by
    rintro ⟨-, hlt⟩
    rw [show (Phase.mk 0 2 "run_up" emptyFeedback).stop = 2 from rfl,
        div_lt_iff₀ (by norm_num : (0:ℚ) < 30)] at hlt
    linarith
  have ht : (Phase.mk 2 4 "release" (Feedback.mk ["RIGHT_ELBOW"] [] [])).start ≤
        (n : ℚ) / 30 ∧
      (n : ℚ) / 30 <
        (Phase.mk 2 4 "release" (Feedback.mk ["RIGHT_ELBOW"] [] [])).stop := by
    constructor
    · show (2 : ℚ) ≤ (n : ℚ) / 30
      rw [le_div_iff₀ (by norm_num : (0:ℚ) < 30)]
      linarith
    · show (n : ℚ) / 30 < 4
      rw [div_lt_iff₀ (by norm_num : (0:ℚ) < 30)]
      linarith
  unfold get_phase_feedback
  rw [gpf_from_skip _ _ _ _ hnot]
  simp only [get_phase_feedback_from]
  rw [if_pos ht]
  rfl

/-- Claim C3: a frame resolving to the first phase is written once and,
as soon as a later phase exists, any frame not in the first phase is
written four times; concretely, the 120-frame 30fps demo scenario
writes exactly 60 + 240 = 300 output frames. -/
theorem C3_frame_dilation :
    (∀ (p0 : Phase) (rest : List Phase) (t : ℚ),
       (p0.start ≤ t ∧ t < p0.stop →
          repeatsFor (get_phase_feedback (p0 :: rest) t).1 = 1) ∧
       (rest ≠ [] → ¬(p0.start ≤ t ∧ t < p0.stop) →
          repeatsFor (get_phase_feedback (p0 :: rest) t).1 = 4)) ∧
    writtenFrames demoPhases 30 120 = 300 := by
  constructor
  · intro p0 rest t
    constructor
    · intro ht
      rw [gpf_cons_here p0 rest t ht]
      rfl
    · intro hrest ht
      exact repeatsFor_pos _ (gpf_cons_later p0 rest t hrest ht)
  · unfold writtenFrames
    rw [show (120 : ℕ) = 60 + 60 from rfl, List.range_add,
        List.map_append, List.sum_append]
    have h1 : (List.range 60).map (framesWritten demoPhases 30) =
        (List.range 60).map (fun _ => 1) :=
      List.map_congr_left fun n hn =>
        demo_framesWritten_lo n (List.mem_range.mp hn)
    have h2 : ((List.range 60).map (60 + ·)).map
          (framesWritten demoPhases 30) =
        ((List.range 60).map (60 + ·)).map (fun _ => 4) :=
      List.map_congr_left fun n hn => by
        rw [List.mem_map] at hn
        obtain ⟨m, hm, rfl⟩ := hn
        have hm' := List.mem_range.mp hm
        exact demo_framesWritten_hi (60 + m) (by omega) (by omega)
    rw [h1, h2, List.map_const', List.map_const', List.sum_replicate,
        List.sum_replicate]
    simp

/-- Closed instance of C3: in the demo scenario a frame at t = 1 is
written once and a frame at t = 3 is written four times. -/
theorem C3_frame_dilation_witness :
    repeatsFor (get_phase_feedback
      [Phase.mk 0 2 "run_up" emptyFeedback,
       Phase.mk 2 4 "release" (Feedback.mk ["RIGHT_ELBOW"] [] [])] 1).1 = 1 ∧
    repeatsFor (get_phase_feedback
      [Phase.mk 0 2 "run_up" emptyFeedback,
       Phase.mk 2 4 "release" (Feedback.mk ["RIGHT_ELBOW"] [] [])] 3).1 = 4 :=
  ⟨(C3_frame_dilation.1 (Phase.mk 0 2 "run_up" emptyFeedback)
      [Phase.mk 2 4 "release" (Feedback.mk ["RIGHT_ELBOW"] [] [])] 1).1
      (by constructor <;> norm_num),
   (C3_frame_dilation.1 (Phase.mk 0 2 "run_up" emptyFeedback)
      [Phase.mk 2 4 "release" (Feedback.mk ["RIGHT_ELBOW"] [] [])] 3).2
      (by decide) (by intro hc; exact absurd hc.2 (by norm_num))⟩

/-! ### Pipeline control flow (process and the orchestrator) -/

/-- The RuntimeError exits of `process` in mediapipe_overlay.py, in the
order the checks appear in the source. -/
inductive RenderError where
  | openFailed
  | invalidProps
  | writerFailed
  | outputMissing
  | outputTooSmall
deriving DecidableEq, Repr

/-- The observable decoding and writing behavior of the external video
stack for one run: whether the capture opened, its reported properties,
whether the writer opened, and what the output file looks like after
the frame loop. -/
structure VideoWorld where
  opened : Bool
  fps : ℚ
  width : Int
  height : Int
  writerOpened : Bool
  outputExists : Bool
  outputSize : Nat
deriving DecidableEq, Repr

/-- Control-flow skeleton of `process` in mediapipe_overlay.py: skip
with a null result when MediaPipe is unavailable, fail on an unopenable
capture, on non-positive fps or dimensions, on a writer that does not
open, and after the frame loop on a missing or sub-1000-byte output
file; otherwise return the output path.  The phase list is loaded
before these checks but never validated, so an empty list is accepted. -/
def process (available : Bool) (phases : List Phase) (w : VideoWorld)
    (output_path : String) : Except RenderError (Option String) :=
  if available = false then Except.ok none
  else if w.opened = false then Except.error RenderError.openFailed
  else if w.fps ≤ 0 ∨ w.width ≤ 0 ∨ w.height ≤ 0 then
    Except.error RenderError.invalidProps
  else if w.writerOpened = false then Except.error RenderError.writerFailed
  else if w.outputExists = false then Except.error RenderError.outputMissing
  else if w.outputSize < 1000 then Except.error RenderError.outputTooSmall
  else Except.ok (some output_path)

/-- The external outcomes seen by `_generate_overlay_sync` in main.py
besides the renderer itself: the ffmpeg invocation, the compressed
file, and the upload. -/
structure OrchWorld where
  video : VideoWorld
  ffmpegTimeout : Bool
  ffmpegExit : Int
  compressedExists : Bool
  uploadOk : Bool
  videoUrl : String
deriving DecidableEq, Repr

/-- Result of one orchestrator run: the value returned to the caller
plus the temporary files created and removed along the way. -/
structure OrchResult where
  result : Option String
  created : List String
  removed : List String
deriving DecidableEq, Repr

/-- Temporary input video file written by the orchestrator. -/
def inputPath : String := "tmp.mp4"

/-- Temporary feedback JSON written by the orchestrator. -/
def feedbackPath : String := "tmp_fb.json"

/-- Renderer output path derived from the input path. -/
def outputPath : String := "tmp_overlay.mp4"

/-- Compressed output path derived from the renderer output path. -/
def compressedPath : String := "tmp_overlay_web.mp4"

/-- Control-flow skeleton of `_generate_overlay_sync` in main.py: check
availability before touching the filesystem; then write the input and
feedback files, run the renderer (any raised error is caught by the
enclosing try and turned into a null return with no cleanup), check the
output file, run ffmpeg with a timeout, check its exit code and output,
upload, and only on that fully successful path remove every temporary
file that exists before returning the uploaded URL. -/
def generateOverlaySync (available : Bool) (phases : List Phase)
    (ow : OrchWorld) : OrchResult :=
  if available = false then
    { result := none, created := [], removed := [] }
  else
    let afterOverlay :=
      [inputPath, feedbackPath] ++
        (if ow.video.outputExists then [outputPath] else [])
    match process available phases ow.video outputPath with
    | Except.error _ =>
        { result := none, created := afterOverlay, removed := [] }
    | Except.ok _ =>
        if ow.video.outputExists = false then
          { result := none, created := afterOverlay, removed := [] }
        else
          let afterFfmpeg :=
            afterOverlay ++
              (if ow.compressedExists then [compressedPath] else [])
          if ow.ffmpegTimeout then
            { result := none, created := afterFfmpeg, removed := [] }
          else if ow.ffmpegExit ≠ 0 then
            { result := none, created := afterFfmpeg, removed := [] }
          else if ow.compressedExists = false then
            { result := none, created := afterFfmpeg, removed := [] }
          else if ow.uploadOk = false then
            { result := none, created := afterFfmpeg, removed := [] }
          else
            { result := some ow.videoUrl, created := afterFfmpeg,
              removed := afterFfmpeg }

/-- Any renderer error is swallowed by the orchestrator and surfaces as
a null result. -/
theorem generateOverlaySync_error (phases : List Phase) (ow : OrchWorld)
    (e : RenderError)
    (he : process true phases ow.video outputPath = Except.error e) :
    (generateOverlaySync true phases ow).result = none := by
  unfold generateOverlaySync
  rw [if_neg (by decide : ¬(true = false)), he]

/-- Claim C6 is refuted as stated: a zero-phase request passes the
renderer without any error, and a malformed input (unopenable stream)
yields the same null pipeline result as the capability-unavailable
case, so callers cannot distinguish the two outcomes. -/
theorem C6_counterexample :
    process true [] (VideoWorld.mk true 30 640 480 true true 5000)
        outputPath = Except.ok (some outputPath) ∧
    (generateOverlaySync true []
        (OrchWorld.mk (VideoWorld.mk false 30 640 480 true false 0)
          false 0 true true "url")).result =
      (generateOverlaySync false []
        (OrchWorld.mk (VideoWorld.mk false 30 640 480 true false 0)
          false 0 true true "url")).result := by
  exact ⟨rfl, rfl⟩

/-- Claim C6 (amended): an unopenable stream, or a non-positive frame
rate or non-positive dimensions, aborts the render with a distinct
renderer-level error; but a zero-phase request is not validated, and
the orchestrator catches every renderer error and returns the same
null result as the capability-unavailable case, so pipeline callers
cannot distinguish malformed input from feature-unavailable. -/
theorem C6_malformed_handling (phases : List Phase) (w : VideoWorld)
    (ow : OrchWorld) (path : String) :
    (w.opened = false →
       process true phases w path = Except.error RenderError.openFailed) ∧
    (w.opened = true → (w.fps ≤ 0 ∨ w.width ≤ 0 ∨ w.height ≤ 0) →
       process true phases w path =
         Except.error RenderError.invalidProps) ∧
    ((∃ e, process true phases ow.video outputPath = Except.error e) →
       (generateOverlaySync true phases ow).result = none) ∧
    (generateOverlaySync false phases ow).result = none := by
  refine ⟨?_, ?_, ?_, ?_⟩
  · intro hop
    unfold process
    rw [if_neg (by decide : ¬(true = false)), if_pos hop]
  · intro hop hprops
    unfold process
    rw [if_neg (by decide : ¬(true = false)),
        if_neg (by simp [hop]), if_pos hprops]
  · rintro ⟨e, he⟩
    exact generateOverlaySync_error phases ow e he
  · unfold generateOverlaySync
    rw [if_pos rfl]

/-- Closed instance of C6 (amended): concrete malformed and unavailable
runs. -/
theorem C6_malformed_handling_witness :
    process true [] (VideoWorld.mk false 30 640 480 true false 0)
        outputPath = Except.error RenderError.openFailed ∧
    process true [] (VideoWorld.mk true 0 640 480 true false 0)
        outputPath = Except.error RenderError.invalidProps ∧
    (generateOverlaySync true []
        (OrchWorld.mk (VideoWorld.mk false 30 640 480 true false 0)
          false 0 true true "url")).result = none ∧
    (generateOverlaySync false []
        (OrchWorld.mk (VideoWorld.mk false 30 640 480 true false 0)
          false 0 true true "url")).result = none :=
  ⟨(C6_malformed_handling []
      (VideoWorld.mk false 30 640 480 true false 0)
      (OrchWorld.mk (VideoWorld.mk false 30 640 480 true false 0)
        false 0 true true "url") outputPath).1 rfl,
   (C6_malformed_handling []
      (VideoWorld.mk true 0 640 480 true false 0)
      (OrchWorld.mk (VideoWorld.mk false 30 640 480 true false 0)
        false 0 true true "url") outputPath).2.1 rfl
      (Or.inl (by norm_num)),
   (C6_malformed_handling []
      (VideoWorld.mk false 30 640 480 true false 0)
      (OrchWorld.mk (VideoWorld.mk false 30 640 480 true false 0)
        false 0 true true "url") outputPath).2.2.1
      ⟨RenderError.openFailed, rfl⟩,
   (C6_malformed_handling []
      (VideoWorld.mk false 30 640 480 true false 0)
      (OrchWorld.mk (VideoWorld.mk false 30 640 480 true false 0)
        false 0 true true "url") outputPath).2.2.2⟩

/-- Claim C7 is refuted as stated: when the renderer fails on an
unopenable input, the orchestrator has already created the temporary
input and feedback files and returns null without removing anything. -/
theorem C7_counterexample :
    (generateOverlaySync true []
        (OrchWorld.mk (VideoWorld.mk false 30 640 480 true false 0)
          false 0 true true "url")).result = none ∧
    inputPath ∈ (generateOverlaySync true []
        (OrchWorld.mk (VideoWorld.mk false 30 640 480 true false 0)
          false 0 true true "url")).created ∧
    (generateOverlaySync true []
        (OrchWorld.mk (VideoWorld.mk false 30 640 480 true false 0)
          false 0 true true "url")).removed = [] := by
  refine ⟨rfl, ?_, rfl⟩
  decide

/-- Claim C7 (amended): temporary files are removed only on the fully
successful exit path, where everything created is removed; on every
exit path that returns null (expected failure or caught exception)
nothing at all is removed. -/
theorem C7_cleanup_success_only (available : Bool) (phases : List Phase)
    (ow : OrchWorld) :
    ((generateOverlaySync available phases ow).result ≠ none →
       (generateOverlaySync available phases ow).removed =
         (generateOverlaySync available phases ow).created) ∧
    ((generateOverlaySync available phases ow).result = none →
       (generateOverlaySync available phases ow).removed = []) := by
  unfold generateOverlaySync
  repeat' split
  all_goals simp

/-- Closed instance of C7 (amended): a fully successful run removes
what it created; a failing run removes nothing. -/
theorem C7_cleanup_success_only_witness :
    (generateOverlaySync true []
        (OrchWorld.mk (VideoWorld.mk true 30 640 480 true true 5000)
          false 0 true true "url")).removed =
      (generateOverlaySync true []
        (OrchWorld.mk (VideoWorld.mk true 30 640 480 true true 5000)
          false 0 true true "url")).created ∧
    (generateOverlaySync true []
        (OrchWorld.mk (VideoWorld.mk false 30 640 480 true false 0)
          false 0 true true "url")).removed = [] :=
  ⟨(C7_cleanup_success_only true []
      (OrchWorld.mk (VideoWorld.mk true 30 640 480 true true 5000)
        false 0 true true "url")).1 (by decide),
   (C7_cleanup_success_only true []
      (OrchWorld.mk (VideoWorld.mk false 30 640 480 true false 0)
        false 0 true true "url")).2 (by decide)⟩

/-- Claim C8: when writing completes but the output file is missing or
smaller than the 1000-byte plausibility threshold, the renderer raises
the corresponding integrity error, never returns the output path, and
the pipeline result is null. -/
theorem C8_output_integrity (phases : List Phase) (ow : OrchWorld)
    (hopen : ow.video.opened = true) (hfps : 0 < ow.video.fps)
    (hw : 0 < ow.video.width) (hh : 0 < ow.video.height)
    (hwriter : ow.video.writerOpened = true) :
    (ow.video.outputExists = false →
       process true phases ow.video outputPath =
         Except.error RenderError.outputMissing) ∧
    (ow.video.outputExists = true → ow.video.outputSize < 1000 →
       process true phases ow.video outputPath =
         Except.error RenderError.outputTooSmall) ∧
    ((ow.video.outputExists = false ∨ ow.video.outputSize < 1000) →
       process true phases ow.video outputPath ≠
         Except.ok (some outputPath) ∧
       (generateOverlaySync true phases ow).result = none) := by
  have hprops : ¬(ow.video.fps ≤ 0 ∨ ow.video.width ≤ 0 ∨
      ow.video.height ≤ 0) := by
    push_neg
    exact ⟨hfps, hw, hh⟩
  have hmissing : ow.video.outputExists = false →
      process true phases ow.video outputPath =
        Except.error RenderError.outputMissing := by
    intro hex
    unfold process
    rw [if_neg (by decide : ¬(true = false)), if_neg (by simp [hopen]),
        if_neg hprops, if_neg (by simp [hwriter]), if_pos hex]
  have hsmall : ow.video.outputExists = true →
      ow.video.outputSize < 1000 →
      process true phases ow.video outputPath =
        Except.error RenderError.outputTooSmall := by
    intro hex hsize
    unfold process
    rw [if_neg (by decide : ¬(true = false)), if_neg (by simp [hopen]),
        if_neg hprops, if_neg (by simp [hwriter]),
        if_neg (by simp [hex]), if_pos hsize]
  refine ⟨hmissing, hsmall, ?_⟩
  intro hor
  have herr : ∃ e, process true phases ow.video outputPath =
      Except.error e := by
    rcases hor with hex | hsize
    · exact ⟨RenderError.outputMissing, hmissing hex⟩
    · cases hex : ow.video.outputExists with
      | false => exact ⟨RenderError.outputMissing, hmissing hex⟩
      | true => exact ⟨RenderError.outputTooSmall, hsmall hex hsize⟩
  obtain ⟨e, he⟩ := herr
  constructor
  · intro hcontra
    rw [he] at hcontra
    exact Except.noConfusion hcontra
  · exact generateOverlaySync_error phases ow e he

/-- Closed instance of C8: a 500-byte output file raises the
too-small integrity error; a missing output raises the missing error. -/
theorem C8_output_integrity_witness :
    process true []
        (VideoWorld.mk true 30 640 480 true true 500) outputPath =
      Except.error RenderError.outputTooSmall ∧
    process true []
        (VideoWorld.mk true 30 640 480 true false 0) outputPath =
      Except.error RenderError.outputMissing :=
  ⟨(C8_output_integrity []
      (OrchWorld.mk (VideoWorld.mk true 30 640 480 true true 500)
        false 0 true true "url") rfl (by norm_num) (by norm_num)
      (by norm_num) rfl).2.1 rfl (by norm_num),
   (C8_output_integrity []
      (OrchWorld.mk (VideoWorld.mk true 30 640 480 true false 0)
        false 0 true true "url") rfl (by norm_num) (by norm_num)
      (by norm_num) rfl).1 rfl⟩

/-- Claim C9: with the pose estimator unavailable, the renderer returns
a null artifact without raising, and the orchestrator short-circuits
before any file is created or removed. -/
theorem C9_unavailable_no_writes (phases : List Phase) (w : VideoWorld)
    (ow : OrchWorld) (path : String) :
    process false phases w path = Except.ok none ∧
    generateOverlaySync false phases ow =
      { result := none, created := [], removed := [] } := by
  constructor
  · unfold process
    rw [if_pos rfl]
  · unfold generateOverlaySync
    rw [if_pos rfl]

/-- The length of the output stream equals the dilation-weighted frame
count, whatever the per-frame pose detection outcomes are. -/
theorem outputStream_length (phases : List Phase) (fps : ℚ)
    (detected : Nat → Bool) (frameCount : Nat) :
    (outputStream phases fps detected frameCount).length =
      writtenFrames phases fps frameCount := by
  unfold outputStream writtenFrames
  rw [List.length_flatMap]
  congr 1
  apply List.map_congr_left
  intro n _
  simp [Function.comp, List.length_replicate]

/-- Claim C10: a frame on which pose estimation found no landmarks is
still rendered (caption only, no skeleton, no joint markers) and
written the same number of times; the total written frame count
depends only on the frame count and the phase boundaries, never on the
detection outcomes. -/
theorem C10_pose_independence (phases : List Phase) (fps : ℚ)
    (frameCount : Nat) (f g : Nat → Bool) (n : Nat) :
    (outputStream phases fps f frameCount).length =
      writtenFrames phases fps frameCount ∧
    (outputStream phases fps f frameCount).length =
      (outputStream phases fps g frameCount).length ∧
    (renderFrame phases fps false n).joints = [] ∧
    (renderFrame phases fps false n).skeletonDrawn = false ∧
    (renderFrame phases fps false n).label =
      (renderFrame phases fps true n).label :=
  ⟨outputStream_length phases fps f frameCount,
   (outputStream_length phases fps f frameCount).trans
     (outputStream_length phases fps g frameCount).symm,
   rfl, rfl, rfl⟩

end BowlingMate
